import Mathlib

/-!
Verification of the Recipe CRUD API (Express router over a document store).

The HTTP router (routes/Recipe.js) is embedded directly from the source:
each route handler destructures the request, invokes one Record Store
operation, and maps the outcome (value, absence, or thrown error) to an
HTTP status and JSON body.  The Record Store itself (the Mongoose model in
models/Recipe.js) is not part of the provided sources, so it is modelled
from the specification's collaborator contract (findAll, findById, create,
findByIdAndUpdate, findByIdAndDelete, with schema validation on create and
a cast error on malformed identifiers).
-/

set_option autoImplicit false

namespace RecipeAPI

/-- Modelled from the spec: a stored Recipe document.  The record store
assigns the opaque `id`; `title`, `ingredients`, `instructions` are
required at creation but an update may overwrite any of the four mutable
fields with an absent value, so all four are optional in the stored shape. -/
structure Recipe where
  id : Nat
  title : Option String
  ingredients : Option (List String)
  instructions : Option String
  image : Option String
deriving Repr, DecidableEq

/-- The four mutable fields a write operation passes to the record store
(`{ title, ingredients, instructions, image }` in the source). -/
structure RecipeFields where
  title : Option String
  ingredients : Option (List String)
  instructions : Option String
  image : Option String
deriving Repr, DecidableEq

/-- A JSON request body: the four recognised fields, each possibly absent,
plus any other fields the client sent (for example a client-supplied id).
The handlers destructure only the four recognised fields. -/
structure ReqBody where
  title : Option String
  ingredients : Option (List String)
  instructions : Option String
  image : Option String
  extra : List (String × String)
deriving Repr, DecidableEq

/-- `const { title, ingredients, instructions, image } = req.body` -/
def bodyFields (b : ReqBody) : RecipeFields :=
  ⟨b.title, b.ingredients, b.instructions, b.image⟩

/-- Modelled from the spec: a path identifier as the record store's
addressing scheme sees it — either well-formed (resolving into the id
space) or malformed (the store's lookup raises a cast error on it). -/
inductive PathId where
  | valid (n : Nat)
  | malformed (raw : String)
deriving Repr, DecidableEq

/-- Modelled from the spec: the two non-NotFound failure kinds the record
store can raise — a schema validation failure on create, a cast error on a
malformed identifier, or any other store-side failure. -/
inductive StoreError where
  | validationError
  | castError
  | connectionError (msg : String)
deriving Repr, DecidableEq

/-- Modelled from the spec: the record store's durable state — the stored
documents plus the next identifier to issue (identifiers are globally
unique and never reused). -/
structure Store where
  records : List Recipe
  nextId : Nat
deriving Repr, DecidableEq

/-- First stored record with the given id, if any. -/
def Store.lookup (s : Store) (n : Nat) : Option Recipe :=
  s.records.find? (fun r => r.id == n)

/-- Modelled from the spec: `findAll() -> seq<Recipe>` in the store's
natural order. -/
def Store.findAll (s : Store) : Except StoreError (List Recipe) :=
  .ok s.records

/-- Modelled from the spec: `findById(id) -> Recipe|absent`; a malformed
identifier raises a cast error instead of returning absent. -/
def Store.findById (s : Store) (pid : PathId) : Except StoreError (Option Recipe) :=
  match pid with
  | .malformed _ => .error .castError
  | .valid n => .ok (s.lookup n)

/-- Modelled from the spec: `create(fields) -> Recipe`, failing with a
validation error when a required field (title, ingredients, instructions)
is missing; on success the store assigns the next fresh identifier. -/
def Store.create (s : Store) (f : RecipeFields) : Except StoreError (Recipe × Store) :=
  match f.title, f.ingredients, f.instructions with
  | some t, some ing, some ins =>
    let r : Recipe := ⟨s.nextId, some t, some ing, some ins, f.image⟩
    .ok (r, ⟨s.records ++ [r], s.nextId + 1⟩)
  | _, _, _ => .error .validationError

/-- Full replacement of the four mutable fields of a matching record; the
identifier is kept. -/
def replaceFields (n : Nat) (f : RecipeFields) (q : Recipe) : Recipe :=
  if q.id == n then ⟨q.id, f.title, f.ingredients, f.instructions, f.image⟩ else q

/-- Modelled from the spec: `findByIdAndUpdate(id, fields) -> Recipe|absent`
with full-replacement semantics over the four mutable fields, returning the
post-update document; a malformed identifier raises a cast error. -/
def Store.findByIdAndUpdate (s : Store) (pid : PathId) (f : RecipeFields) :
    Except StoreError (Option (Recipe × Store)) :=
  match pid with
  | .malformed _ => .error .castError
  | .valid n =>
    match s.lookup n with
    | none => .ok none
    | some _ =>
      .ok (some (⟨n, f.title, f.ingredients, f.instructions, f.image⟩,
                 ⟨s.records.map (replaceFields n f), s.nextId⟩))

/-- Modelled from the spec: `findByIdAndDelete(id) -> Recipe|absent`,
removing the matching document; a malformed identifier raises a cast
error. -/
def Store.findByIdAndDelete (s : Store) (pid : PathId) :
    Except StoreError (Option (Recipe × Store)) :=
  match pid with
  | .malformed _ => .error .castError
  | .valid n =>
    match s.lookup n with
    | none => .ok none
    | some r => .ok (some (r, ⟨s.records.filter (fun q => !(q.id == n)), s.nextId⟩))

/-- JSON response bodies the router produces. -/
inductive ResBody where
  | recipes (rs : List Recipe)
  | recipe (r : Recipe)
  | created (message : String) (recipe : Recipe)
  | message (m : String)
  | error (e : String)
deriving Repr, DecidableEq

/-- An HTTP response: status code and JSON body. -/
structure Response where
  status : Nat
  body : ResBody
deriving Repr, DecidableEq

/-- Outcome mapping of `router.get('/recipes')`: `res.json(recipes)` on
success, status 500 with an opaque error body on a caught store error. -/
def getRecipesRoute (result : Except StoreError (List Recipe)) : Response :=
  match result with
  | .ok recipes => ⟨200, .recipes recipes⟩
  | .error _ => ⟨500, .error "Internal Server Error"⟩

/-- Outcome mapping of `router.get('/recipes/:id')`: 404 with a fixed
message when no record matches, the record on success, 500 on a caught
store error. -/
def getRecipeByIdRoute (result : Except StoreError (Option Recipe)) : Response :=
  match result with
  | .ok none => ⟨404, .error "Recipe not found"⟩
  | .ok (some r) => ⟨200, .recipe r⟩
  | .error _ => ⟨500, .error "Internal Server Error"⟩

/-- Outcome mapping of `router.post('/recipes')`: 201 with
`{ message, recipe }` on success, 400 with the fixed body
`{ error: 'Invalid data' }` on any caught store error. -/
def postRecipeRoute (result : Except StoreError Recipe) : Response :=
  match result with
  | .ok r => ⟨201, .created "Recipe Created" r⟩
  | .error _ => ⟨400, .error "Invalid data"⟩

/-- Outcome mapping of `router.put('/recipes/:id')`: 404 when no record
matches, the post-update record on success, 500 on a caught store error. -/
def putRecipeRoute (result : Except StoreError (Option Recipe)) : Response :=
  match result with
  | .ok none => ⟨404, .error "Recipe not found"⟩
  | .ok (some r) => ⟨200, .recipe r⟩
  | .error _ => ⟨500, .error "Internal Server Error"⟩

/-- Outcome mapping of `router.delete('/recipes/:id')`: 404 when no record
matches, 200 with `{ message: 'Recipe deleted' }` on success (the deleted
document is discarded), 500 on a caught store error. -/
def deleteRecipeRoute (result : Except StoreError (Option Recipe)) : Response :=
  match result with
  | .ok none => ⟨404, .error "Recipe not found"⟩
  | .ok (some _) => ⟨200, .message "Recipe deleted"⟩
  | .error _ => ⟨500, .error "Internal Server Error"⟩

/-- The list handler: awaits `Recipe.find()` and maps the outcome. -/
def handleGetAll (s : Store) : Response × Store :=
  (getRecipesRoute s.findAll, s)

/-- The get-by-id handler: awaits `Recipe.findById(id)` and maps the
outcome; the store is read-only here. -/
def handleGetById (s : Store) (pid : PathId) : Response × Store :=
  (getRecipeByIdRoute (s.findById pid), s)

/-- The create handler: destructures the four fields from the body, awaits
`Recipe.create({...})`, and maps the outcome. -/
def handleCreate (s : Store) (b : ReqBody) : Response × Store :=
  match s.create (bodyFields b) with
  | .ok (r, s') => (postRecipeRoute (.ok r), s')
  | .error e => (postRecipeRoute (.error e), s)

/-- The update handler: destructures the four fields from the body, awaits
`Recipe.findByIdAndUpdate(id, {...}, { new: true })`, and maps the
outcome. -/
def handleUpdate (s : Store) (pid : PathId) (b : ReqBody) : Response × Store :=
  match s.findByIdAndUpdate pid (bodyFields b) with
  | .ok none => (putRecipeRoute (.ok none), s)
  | .ok (some (r, s')) => (putRecipeRoute (.ok (some r)), s')
  | .error e => (putRecipeRoute (.error e), s)

/-- The delete handler: awaits `Recipe.findByIdAndDelete(id)` and maps the
outcome. -/
def handleDelete (s : Store) (pid : PathId) : Response × Store :=
  match s.findByIdAndDelete pid with
  | .ok none => (deleteRecipeRoute (.ok none), s)
  | .ok (some (r, s')) => (deleteRecipeRoute (.ok (some r)), s')
  | .error e => (deleteRecipeRoute (.error e), s)

/-- Store well-formedness: every stored identifier was issued, i.e. is
below the next identifier to issue. -/
def Store.WF (s : Store) : Prop :=
  ∀ r ∈ s.records, r.id < s.nextId

instance (s : Store) : Decidable s.WF := by
  unfold Store.WF
  infer_instance

/-! Helper lemmas about list lookups. -/

theorem find_id_append_fresh (l : List Recipe) (r : Recipe)
    (h : ∀ q ∈ l, q.id ≠ r.id) :
    (l ++ [r]).find? (fun q => q.id == r.id) = some r := by
  induction l with
  | nil => simp
  | cons a t ih =>
    have ha : (a.id == r.id) = false := by
      simp only [beq_eq_false_iff_ne, ne_eq]
      exact h a (by simp)
    simp only [List.cons_append, List.find?_cons, ha, cond_false]
    exact ih (fun q hq => h q (List.mem_cons_of_mem a hq))

theorem find_id_map_replace (l : List Recipe) (n : Nat) (f : RecipeFields)
    (r : Recipe) (h : l.find? (fun q => q.id == n) = some r) :
    (l.map (replaceFields n f)).find? (fun q => q.id == n) =
      some ⟨n, f.title, f.ingredients, f.instructions, f.image⟩ := by
  induction l with
  | nil => simp at h
  | cons a t ih =>
    by_cases ha : (a.id == n) = true
    · have han : a.id = n := by simpa using ha
      simp only [List.map_cons, List.find?_cons, replaceFields, ha, if_true, han, beq_self_eq_true,
        cond_true]
    · have ha' : (a.id == n) = false := by
        simp only [Bool.not_eq_true] at ha
        exact ha
      have hfix : replaceFields n f a = a := by
        simp [replaceFields, ha']
      simp only [List.find?_cons, ha', cond_false] at h
      simp only [List.map_cons, List.find?_cons, hfix, ha', cond_false]
      exact ih h

theorem find_id_filter_out (l : List Recipe) (n : Nat) :
    (l.filter (fun q => !(q.id == n))).find? (fun q => q.id == n) = none := by
  induction l with
  | nil => simp
  | cons a t ih =>
    by_cases ha : (a.id == n) = true
    · simp only [List.filter_cons, ha, Bool.not_true, if_false]
      exact ih
    · have ha' : (a.id == n) = false := by
        simp only [Bool.not_eq_true] at ha
        exact ha
      simp only [List.filter_cons, ha', Bool.not_false, if_true, List.find?_cons, cond_false]
      exact ih

theorem map_id_replace (l : List Recipe) (n : Nat) (f : RecipeFields) :
    (l.map (replaceFields n f)).map Recipe.id = l.map Recipe.id := by
  induction l with
  | nil => rfl
  | cons a t ih =>
    have hid : (replaceFields n f a).id = a.id := by
      unfold replaceFields
      split <;> rfl
    simp only [List.map_cons, ih, hid]

/-! Sample inputs used by the witness theorems. -/

def teaBody : ReqBody :=
  ⟨some "Tea", some ["water", "tea leaves"], some "Boil and steep.", none, []⟩

def teaRecipe : Recipe :=
  ⟨0, some "Tea", some ["water", "tea leaves"], some "Boil and steep.", none⟩

def teaStore : Store := ⟨[teaRecipe], 1⟩

/-! The claims. -/

/-- Claim C3: for every well-formed identifier that resolves to no record,
Get-by-id, Update-by-id and Delete-by-id each respond 404 with the fixed
not-found message, and the store state is unchanged. -/
theorem missing_id_404_store_unchanged (s : Store) (n : Nat) (b : ReqBody)
    (h : s.lookup n = none) :
    handleGetById s (.valid n) = (⟨404, .error "Recipe not found"⟩, s) ∧
    handleUpdate s (.valid n) b = (⟨404, .error "Recipe not found"⟩, s) ∧
    handleDelete s (.valid n) = (⟨404, .error "Recipe not found"⟩, s) := by
  refine ⟨?_, ?_, ?_⟩ <;>
    simp [handleGetById, handleUpdate, handleDelete, Store.findById,
      Store.findByIdAndUpdate, Store.findByIdAndDelete, h,
      getRecipeByIdRoute, putRecipeRoute, deleteRecipeRoute]

theorem missing_id_404_store_unchanged_witness :
    Store.lookup teaStore 5 = none ∧
    (handleGetById teaStore (.valid 5) = (⟨404, .error "Recipe not found"⟩, teaStore) ∧
     handleUpdate teaStore (.valid 5) teaBody = (⟨404, .error "Recipe not found"⟩, teaStore) ∧
     handleDelete teaStore (.valid 5) = (⟨404, .error "Recipe not found"⟩, teaStore)) :=
  ⟨by decide, missing_id_404_store_unchanged teaStore 5 teaBody (by decide)⟩

/-- Claim C4: whenever the store's create operation fails — with any
StoreError, including a schema validation failure such as a missing
ingredients field — the Create operation responds 400 with the fixed body
containing only the message Invalid data, and the store is unchanged (no
record created). -/
theorem create_store_error_400 (s : Store) (b : ReqBody) (e : StoreError)
    (h : s.create (bodyFields b) = .error e) :
    handleCreate s b = (⟨400, .error "Invalid data"⟩, s) := by
  simp [handleCreate, h, postRecipeRoute]

theorem create_store_error_400_witness :
    Store.create ⟨[], 0⟩ (bodyFields ⟨some "Tea", none, some "Boil and steep.", none, []⟩) =
      .error .validationError ∧
    handleCreate ⟨[], 0⟩ ⟨some "Tea", none, some "Boil and steep.", none, []⟩ =
      (⟨400, .error "Invalid data"⟩, ⟨[], 0⟩) :=
  ⟨rfl,
   create_store_error_400 ⟨[], 0⟩ ⟨some "Tea", none, some "Boil and steep.", none, []⟩
     .validationError rfl⟩

/-- Claim C5: whenever the store's create operation succeeds, the Create
operation responds 201 with a body of the shape message-plus-recipe, where
the recipe is the created record carrying the store-assigned identifier. -/
theorem create_success_201 (s : Store) (b : ReqBody) (r : Recipe) (s' : Store)
    (h : s.create (bodyFields b) = .ok (r, s')) :
    handleCreate s b = (⟨201, .created "Recipe Created" r⟩, s') ∧ r.id = s.nextId := by
  constructor
  · simp [handleCreate, h, postRecipeRoute]
  · unfold Store.create at h
    split at h
    · simp only [Except.ok.injEq, Prod.mk.injEq] at h
      rw [← h.1]
    · exact absurd h (by simp)

theorem create_success_201_witness :
    Store.create ⟨[], 0⟩ (bodyFields teaBody) = .ok (teaRecipe, teaStore) ∧
    (handleCreate ⟨[], 0⟩ teaBody = (⟨201, .created "Recipe Created" teaRecipe⟩, teaStore) ∧
     teaRecipe.id = Store.nextId ⟨[], 0⟩) :=
  ⟨rfl, create_success_201 ⟨[], 0⟩ teaBody teaRecipe teaStore rfl⟩

/-- Claim C6: a malformed identifier makes the store's lookup raise, and
the Get-by-id operation then responds with the same generic 500
server-error response as any other store failure — never with 404. -/
theorem malformed_id_500 (s : Store) (raw : String) :
    handleGetById s (.malformed raw) = (⟨500, .error "Internal Server Error"⟩, s) ∧
    (∀ e : StoreError,
      getRecipeByIdRoute (.error e) = ⟨500, .error "Internal Server Error"⟩) ∧
    (handleGetById s (.malformed raw)).1.status ≠ 404 := by
  refine ⟨rfl, fun e => rfl, ?_⟩
  exact (by decide : (500 : Nat) ≠ 404)

/-- Claim C7: the List operation returns 200 with exactly the sequence of
records the store's findAll yields, and a findAll failure maps to 500 with
an opaque error body. -/
theorem list_returns_all (s : Store) :
    handleGetAll s = (⟨200, .recipes s.records⟩, s) ∧
    (∀ e : StoreError,
      getRecipesRoute (.error e) = ⟨500, .error "Internal Server Error"⟩) :=
  ⟨rfl, fun _ => rfl⟩

/-- Claim C10: two Create (or two Update-by-id with the same identifier)
requests whose bodies agree on the four recognised fields but differ on
any other body fields issue the same store call and produce the same
response and resulting store state: extra body fields are ignored. -/
theorem extra_body_fields_ignored (s : Store) (pid : PathId) (b1 b2 : ReqBody)
    (ht : b1.title = b2.title) (hi : b1.ingredients = b2.ingredients)
    (hn : b1.instructions = b2.instructions) (hm : b1.image = b2.image) :
    bodyFields b1 = bodyFields b2 ∧
    handleCreate s b1 = handleCreate s b2 ∧
    handleUpdate s pid b1 = handleUpdate s pid b2 := by
  have hbf : bodyFields b1 = bodyFields b2 := by
    simp [bodyFields, ht, hi, hn, hm]
  exact ⟨hbf, by simp [handleCreate, hbf], by simp [handleUpdate, hbf]⟩

theorem extra_body_fields_ignored_witness :
    (ReqBody.title ⟨some "Tea", some ["water"], some "Boil.", none, [("id", "999")]⟩ =
       ReqBody.title ⟨some "Tea", some ["water"], some "Boil.", none, []⟩ ∧
     ReqBody.ingredients ⟨some "Tea", some ["water"], some "Boil.", none, [("id", "999")]⟩ =
       ReqBody.ingredients ⟨some "Tea", some ["water"], some "Boil.", none, []⟩ ∧
     ReqBody.instructions ⟨some "Tea", some ["water"], some "Boil.", none, [("id", "999")]⟩ =
       ReqBody.instructions ⟨some "Tea", some ["water"], some "Boil.", none, []⟩ ∧
     ReqBody.image ⟨some "Tea", some ["water"], some "Boil.", none, [("id", "999")]⟩ =
       ReqBody.image ⟨some "Tea", some ["water"], some "Boil.", none, []⟩) ∧
    (bodyFields ⟨some "Tea", some ["water"], some "Boil.", none, [("id", "999")]⟩ =
       bodyFields ⟨some "Tea", some ["water"], some "Boil.", none, []⟩ ∧
     handleCreate teaStore ⟨some "Tea", some ["water"], some "Boil.", none, [("id", "999")]⟩ =
       handleCreate teaStore ⟨some "Tea", some ["water"], some "Boil.", none, []⟩ ∧
     handleUpdate teaStore (.valid 0)
         ⟨some "Tea", some ["water"], some "Boil.", none, [("id", "999")]⟩ =
       handleUpdate teaStore (.valid 0) ⟨some "Tea", some ["water"], some "Boil.", none, []⟩) :=
  ⟨⟨rfl, rfl, rfl, rfl⟩,
   extra_body_fields_ignored teaStore (.valid 0)
     ⟨some "Tea", some ["water"], some "Boil.", none, [("id", "999")]⟩
     ⟨some "Tea", some ["water"], some "Boil.", none, []⟩ rfl rfl rfl rfl⟩

/-- Claim C1: for every existing record and every update request body, the
Update-by-id operation performs full replacement of the four mutable
fields: the stored record ends up with precisely the four values of the
request body, so a field absent from the body overwrites the old stored
value with an absent value rather than leaving it in place. -/
theorem update_full_replacement (s : Store) (n : Nat) (b : ReqBody) (r : Recipe)
    (h : s.lookup n = some r) :
    ∃ r' s',
      handleUpdate s (.valid n) b = (⟨200, .recipe r'⟩, s') ∧
      s'.lookup n = some r' ∧
      r'.title = b.title ∧ r'.ingredients = b.ingredients ∧
      r'.instructions = b.instructions ∧ r'.image = b.image := by
  refine ⟨⟨n, b.title, b.ingredients, b.instructions, b.image⟩,
    ⟨s.records.map (replaceFields n (bodyFields b)), s.nextId⟩, ?_, ?_, rfl, rfl, rfl, rfl⟩
  · simp [handleUpdate, Store.findByIdAndUpdate, h, putRecipeRoute, bodyFields]
  · exact find_id_map_replace s.records n (bodyFields b) r h

theorem update_full_replacement_witness :
    Store.lookup teaStore 0 = some teaRecipe ∧
    (∃ r' s',
      handleUpdate teaStore (.valid 0) ⟨some "Coffee", none, none, none, []⟩ =
        (⟨200, .recipe r'⟩, s') ∧
      s'.lookup 0 = some r' ∧
      r'.title = some "Coffee" ∧ r'.ingredients = none ∧
      r'.instructions = none ∧ r'.image = none) :=
  ⟨by decide,
   update_full_replacement teaStore 0 ⟨some "Coffee", none, none, none, []⟩ teaRecipe (by decide)⟩

/-- Claim C2: creating a Recipe from a valid body (title, ingredients and
instructions present, image optional) in a well-formed store and then
fetching it by the identifier returned in the create response yields 200
with a record whose four fields are identical to the values supplied at
creation. -/
theorem create_then_get (s : Store) (b : ReqBody)
    (t : String) (ing : List String) (ins : String) (hwf : s.WF)
    (ht : b.title = some t) (hi : b.ingredients = some ing)
    (hn : b.instructions = some ins) :
    ∃ r s',
      handleCreate s b = (⟨201, .created "Recipe Created" r⟩, s') ∧
      handleGetById s' (.valid r.id) = (⟨200, .recipe r⟩, s') ∧
      r.title = b.title ∧ r.ingredients = b.ingredients ∧
      r.instructions = b.instructions ∧ r.image = b.image := by
  refine ⟨⟨s.nextId, some t, some ing, some ins, b.image⟩,
    ⟨s.records ++ [⟨s.nextId, some t, some ing, some ins, b.image⟩], s.nextId + 1⟩,
    ?_, ?_, ?_, ?_, ?_, rfl⟩
  · simp [handleCreate, Store.create, bodyFields, ht, hi, hn, postRecipeRoute]
  · have hfresh : ∀ q ∈ s.records, q.id ≠ s.nextId := fun q hq => Nat.ne_of_lt (hwf q hq)
    have hfind : (s.records ++ [(⟨s.nextId, some t, some ing, some ins, b.image⟩ : Recipe)]).find?
        (fun q => q.id == s.nextId) = some ⟨s.nextId, some t, some ing, some ins, b.image⟩ :=
      find_id_append_fresh s.records ⟨s.nextId, some t, some ing, some ins, b.image⟩ hfresh
    simp [handleGetById, Store.findById, Store.lookup, hfind, getRecipeByIdRoute]
  · rw [ht]
  · rw [hi]
  · rw [hn]

theorem create_then_get_witness :
    (Store.WF ⟨[], 0⟩ ∧ teaBody.title = some "Tea" ∧
     teaBody.ingredients = some ["water", "tea leaves"] ∧
     teaBody.instructions = some "Boil and steep.") ∧
    (∃ r s',
      handleCreate ⟨[], 0⟩ teaBody = (⟨201, .created "Recipe Created" r⟩, s') ∧
      handleGetById s' (.valid r.id) = (⟨200, .recipe r⟩, s') ∧
      r.title = teaBody.title ∧ r.ingredients = teaBody.ingredients ∧
      r.instructions = teaBody.instructions ∧ r.image = teaBody.image) :=
  ⟨⟨by decide, rfl, rfl, rfl⟩,
   create_then_get ⟨[], 0⟩ teaBody "Tea" ["water", "tea leaves"] "Boil and steep."
     (by decide) rfl rfl rfl⟩

/-- Claim C8: deleting an identifier that resolves to a record removes that
record from the store and responds 200 with the fixed confirmation body
containing only the message Recipe deleted; the deleted record's content
does not appear in the response. -/
theorem delete_success_200 (s : Store) (n : Nat) (r : Recipe)
    (h : s.lookup n = some r) :
    ∃ s',
      handleDelete s (.valid n) = (⟨200, .message "Recipe deleted"⟩, s') ∧
      s'.records = s.records.filter (fun q => !(q.id == n)) ∧
      s'.lookup n = none := by
  refine ⟨⟨s.records.filter (fun q => !(q.id == n)), s.nextId⟩, ?_, rfl, ?_⟩
  · simp [handleDelete, Store.findByIdAndDelete, h, deleteRecipeRoute]
  · exact find_id_filter_out s.records n

theorem delete_success_200_witness :
    Store.lookup teaStore 0 = some teaRecipe ∧
    (∃ s',
      handleDelete teaStore (.valid 0) = (⟨200, .message "Recipe deleted"⟩, s') ∧
      s'.records = teaStore.records.filter (fun q => !(q.id == 0)) ∧
      s'.lookup 0 = none) :=
  ⟨by decide, delete_success_200 teaStore 0 teaRecipe (by decide)⟩

/-- Claim C9: for every existing record and every update request body —
including a body that carries extra fields such as a client-supplied id —
the Update-by-id operation never changes the record's identifier: only the
four mutable fields are passed to the store, the returned record keeps the
identifier, and the multiset of stored identifiers is unchanged. -/
theorem update_preserves_id (s : Store) (n : Nat) (b : ReqBody) (r : Recipe)
    (h : s.lookup n = some r) :
    ∃ r' s',
      handleUpdate s (.valid n) b = (⟨200, .recipe r'⟩, s') ∧
      r'.id = r.id ∧
      s'.records.map Recipe.id = s.records.map Recipe.id := by
  have hid : r.id = n := by
    have hp := List.find?_some h
    simpa using hp
  refine ⟨⟨n, b.title, b.ingredients, b.instructions, b.image⟩,
    ⟨s.records.map (replaceFields n (bodyFields b)), s.nextId⟩, ?_, ?_, ?_⟩
  · simp [handleUpdate, Store.findByIdAndUpdate, h, putRecipeRoute, bodyFields]
  · exact hid.symm
  · exact map_id_replace s.records n (bodyFields b)

theorem update_preserves_id_witness :
    Store.lookup teaStore 0 = some teaRecipe ∧
    (∃ r' s',
      handleUpdate teaStore (.valid 0)
          ⟨some "Coffee", some ["beans"], some "Brew.", none, [("id", "999")]⟩ =
        (⟨200, .recipe r'⟩, s') ∧
      r'.id = teaRecipe.id ∧
      s'.records.map Recipe.id = teaStore.records.map Recipe.id) :=
  ⟨by decide,
   update_preserves_id teaStore 0
     ⟨some "Coffee", some ["beans"], some "Brew.", none, [("id", "999")]⟩ teaRecipe (by decide)⟩

end RecipeAPI
